import Mathlib

/-!
Shallow embedding of the submission lifecycle and answer-validation engine
of the forms backend (module SubmissionsService, Prisma-backed persistence).

The database is modelled as explicit lists of rows; Prisma reads
(findUnique / findFirst / findMany without orderBy) return rows in stored
list order, and every operation is a function from a database state to a
result paired with the post-state.  Row ids are Nat; timestamps are a
logical clock (the now field of DB).  DB-managed createdAt and updatedAt
columns are omitted: no core logic reads them.
-/

namespace FormsBackend

/-- User roles, from the Prisma enum UserRole = admin | creator | common. -/
inductive UserRole where
  | admin
  | creator
  | common
deriving DecidableEq, Repr

/-- Question types, from the Prisma enum QuestionType. -/
inductive QuestionType where
  | text
  | checkbox
  | radio
deriving DecidableEq, Repr

/-- Submission status, from the Prisma enum SubmissionStatus. -/
inductive SubmissionStatus where
  | in_progress
  | submitted
deriving DecidableEq, Repr

/-- A Form row (only the columns the submissions service reads). -/
structure Form where
  id : Nat
  isPublished : Bool
  ownerUserId : Nat
deriving DecidableEq, Repr

/-- A Question row (columns selected by the submissions service). -/
structure Question where
  id : Nat
  formId : Nat
  type : QuestionType
  isRequired : Bool
  minChoices : Option Nat
  maxChoices : Option Nat
  orderIndex : Nat
deriving DecidableEq, Repr

/-- A QuestionOption row (only id and owning question are read). -/
structure QuestionOption where
  id : Nat
  questionId : Nat
deriving DecidableEq, Repr

/-- A FormSubmission row. submittedAt is null until finalized. -/
structure Submission where
  id : Nat
  formId : Nat
  respondentUserId : Nat
  status : SubmissionStatus
  startedAt : Nat
  submittedAt : Option Nat
deriving DecidableEq, Repr

/-- An Answer row; textValue is a nullable column. -/
structure Answer where
  id : Nat
  submissionId : Nat
  questionId : Nat
  textValue : Option String
deriving DecidableEq, Repr

/-- An AnswerSelectedOption join row linking an Answer to a QuestionOption. -/
structure AnswerSelectedOption where
  answerId : Nat
  optionId : Nat
deriving DecidableEq, Repr

/-- The request payload of upsertAnswer (zod schema upsertAnswerSchema).
none models an absent (undefined) field; zod never produces null here. -/
structure UpsertAnswerDTO where
  questionId : Nat
  textValue : Option String
  selectedOptionIds : Option (List Nat)
deriving DecidableEq, Repr

/-- The database state: one list of rows per table, a fresh-id counter for
row creation, and a logical clock standing for new Date(). -/
structure DB where
  forms : List Form
  questions : List Question
  options : List QuestionOption
  submissions : List Submission
  answers : List Answer
  selections : List AnswerSelectedOption
  nextId : Nat
  now : Nat
deriving DecidableEq, Repr

/-- The http errors thrown by the service (utils/httpError helpers).
badRequest optionally carries the offending questionId from its details
object; the numeric bound details are not modelled. -/
inductive Err where
  | notFound : String → Err
  | forbidden : String → Err
  | badRequest : String → Option Nat → Err
deriving DecidableEq, Repr

instance {ε α : Type} [DecidableEq ε] [DecidableEq α] : DecidableEq (Except ε α) := fun a b =>
  match a, b with
  | Except.ok x, Except.ok y =>
    if h : x = y then isTrue (h ▸ rfl) else isFalse (fun hc => h (Except.ok.inj hc))
  | Except.error x, Except.error y =>
    if h : x = y then isTrue (h ▸ rfl) else isFalse (fun hc => h (Except.error.inj hc))
  | Except.ok _, Except.error _ => isFalse (fun hc => Except.noConfusion hc)
  | Except.error _, Except.ok _ => isFalse (fun hc => Except.noConfusion hc)

/-- Predicate used by start for the existing-submission lookup: the
findFirst filter formId, respondentUserId, status = in_progress. -/
def isInProgressFor (formId userId : Nat) (s : Submission) : Bool :=
  s.formId == formId && s.respondentUserId == userId && s.status == SubmissionStatus.in_progress

/-- canStartUnpublishedForm from the submissions service: admins always,
creators only when they own the form. -/
def canStartUnpublishedForm (role : UserRole) (userId ownerUserId : Nat) : Bool :=
  if role == UserRole.admin then true
  else if role == UserRole.creator && userId == ownerUserId then true
  else false

/-- The fresh row created by start: status in_progress, startedAt = now,
next free id. -/
def startedRow (db : DB) (formId userId : Nat) : Submission :=
  { id := db.nextId
    formId := formId
    respondentUserId := userId
    status := SubmissionStatus.in_progress
    startedAt := db.now
    submittedAt := none }

/-- SubmissionsService.start: load the form, enforce the publication
check, return the existing in_progress submission for (form, respondent)
if any, otherwise create a fresh one with startedAt = now. -/
def SubmissionsService.start (db : DB) (formId userId : Nat) (role : UserRole) :
    Except Err Submission × DB :=
  match db.forms.find? (fun f => f.id == formId) with
  | none => (Except.error (Err.notFound "Form not found"), db)
  | some form =>
    if !form.isPublished && !(canStartUnpublishedForm role userId form.ownerUserId) then
      (Except.error (Err.forbidden "Form is not published"), db)
    else
      match db.submissions.find? (isInProgressFor formId userId) with
      | some existing => (Except.ok existing, db)
      | none =>
        (Except.ok (startedRow db formId userId),
          { db with
              submissions := db.submissions ++ [startedRow db formId userId]
              nextId := db.nextId + 1 })

/-- Helper for dedupIds: keep each id the first time it appears, skipping
ids already seen. -/
def dedupAux : List Nat → List Nat → List Nat
  | [], _ => []
  | x :: xs, seen =>
    if x ∈ seen then dedupAux xs seen else x :: dedupAux xs (x :: seen)

/-- Array.from(new Set(xs)) in the service: first-occurrence
de-duplication preserving order. -/
def dedupIds (l : List Nat) : List Nat := dedupAux l []

/-- All answers of one submission, in stored order. -/
def answersOf (db : DB) (sid : Nat) : List Answer :=
  db.answers.filter (fun a => a.submissionId == sid)

/-- The answersByQuestion map of submit: inserting the answers of the
submission in list order and reading one key back, so a later row wins. -/
def lastAnswerFor : List Answer → Nat → Option Answer
  | [], _ => none
  | a :: rest, qid =>
    match lastAnswerFor rest qid with
    | some b => some b
    | none => if a.questionId == qid then some a else none

/-- Number of AnswerSelectedOption rows linked to one answer. -/
def selectionCount (db : DB) (answerId : Nat) : Nat :=
  (db.selections.filter (fun s => s.answerId == answerId)).length

/-- The trim of the source (String.prototype.trim): strip leading and
trailing whitespace. Written on the character list so that it reduces by
computation. -/
def jsTrim (s : String) : String :=
  String.mk (((s.data.dropWhile Char.isWhitespace).reverse.dropWhile Char.isWhitespace).reverse)

/-- The hasText test of submit on a possibly missing stored answer: the
text column is neither null nor absent and trims to a non-empty string. -/
def storedHasText (ans : Option Answer) : Bool :=
  match ans with
  | some a =>
    match a.textValue with
    | some t => decide (0 < (jsTrim t).length)
    | none => false
  | none => false

/-- The count of submit on a possibly missing stored answer: the number
of linked selected-option rows, 0 when no answer row exists. -/
def storedCount (db : DB) (ans : Option Answer) : Nat :=
  match ans with
  | some a => selectionCount db a.id
  | none => 0

/-- The per-question completeness check of SubmissionsService.submit,
run against the persisted answer rows: required text must have non-blank
trimmed text; choice questions must respect the effective minimum
(minChoices, defaulting to 1 when required), minChoices, maxChoices, and
the radio exact-count rules. Returns the error thrown, if any. -/
def validateQuestionAtSubmit (db : DB) (sid : Nat) (q : Question) : Option Err :=
  if q.type == QuestionType.text then
    if q.isRequired && !(storedHasText (lastAnswerFor (answersOf db sid) q.id)) then
      some (Err.badRequest "Missing required text answer" (some q.id))
    else none
  else
    if q.isRequired
        && decide (storedCount db (lastAnswerFor (answersOf db sid) q.id) < q.minChoices.getD 1) then
      some (Err.badRequest "Not enough selected options" (some q.id))
    else if (match q.minChoices with
        | some m => decide (storedCount db (lastAnswerFor (answersOf db sid) q.id) < m)
        | none => false) then
      some (Err.badRequest "Not enough selected options" (some q.id))
    else if (match q.maxChoices with
        | some m => decide (m < storedCount db (lastAnswerFor (answersOf db sid) q.id))
        | none => false) then
      some (Err.badRequest "Too many selected options" (some q.id))
    else if q.type == QuestionType.radio && q.isRequired
        && storedCount db (lastAnswerFor (answersOf db sid) q.id) != 1 then
      some (Err.badRequest "Radio question must have exactly one selected option" (some q.id))
    else if q.type == QuestionType.radio && !q.isRequired
        && decide (1 < storedCount db (lastAnswerFor (answersOf db sid) q.id)) then
      some (Err.badRequest "Radio question must have at most one selected option" (some q.id))
    else none

/-- The fail-fast loop of submit over the questions of the form: the
first question whose check fails determines the thrown error. -/
def firstViolation (db : DB) (sid : Nat) : List Question → Option Err
  | [] => none
  | q :: qs =>
    match validateQuestionAtSubmit db sid q with
    | some e => some e
    | none => firstViolation db sid qs

/-- The questions of a form as the nested Prisma read returns them: the
stored table order, with no orderBy applied. -/
def questionsOfForm (db : DB) (formId : Nat) : List Question :=
  db.questions.filter (fun q => q.formId == formId)

/-- The status transition applied by submit to the loaded row: status
becomes submitted and submittedAt is stamped with now. -/
def submittedRow (s : Submission) (now : Nat) : Submission :=
  { s with status := SubmissionStatus.submitted, submittedAt := some now }

/-- SubmissionsService.submit: load the submission with its form
questions and answers, require in_progress status and the owning
respondent, run the completeness check question by question, and on
success transition to submitted with submittedAt = now. -/
def SubmissionsService.submit (db : DB) (submissionId userId : Nat) :
    Except Err Submission × DB :=
  match db.submissions.find? (fun s => s.id == submissionId) with
  | none => (Except.error (Err.notFound "Submission not found"), db)
  | some s =>
    if s.status != SubmissionStatus.in_progress then
      (Except.error (Err.forbidden "Submission is not in progress"), db)
    else if s.respondentUserId != userId then
      (Except.error (Err.forbidden "You can only submit your own submission"), db)
    else
      match firstViolation db submissionId (questionsOfForm db s.formId) with
      | some e => (Except.error e, db)
      | none =>
        (Except.ok (submittedRow s db.now),
          { db with
              submissions := db.submissions.map
                (fun t => if t.id == submissionId then submittedRow s db.now else t) })

/-- prisma.answer.upsert keyed by (submissionId, questionId): update the
stored text of the existing row, or create a fresh row with the next id.
Returns the written row together with the post-state. -/
def upsertAnswerRow (db : DB) (sid qid : Nat) (tv : Option String) : Answer × DB :=
  match db.answers.find? (fun a => a.submissionId == sid && a.questionId == qid) with
  | some a =>
    ({ a with textValue := tv },
      { db with answers := db.answers.map (fun t =>
          if t.submissionId == sid && t.questionId == qid then
            { t with textValue := tv } else t) })
  | none =>
    let created : Answer := { id := db.nextId, submissionId := sid, questionId := qid, textValue := tv }
    (created, { db with answers := db.answers ++ [created], nextId := db.nextId + 1 })

/-- The transactional deleteMany-then-createMany on the selected options
of one answer: full replacement of the linked option set. -/
def replaceSelections (db : DB) (answerId : Nat) (optionIds : List Nat) : DB :=
  { db with selections :=
      db.selections.filter (fun s => s.answerId != answerId)
        ++ optionIds.map (fun oid => { answerId := answerId, optionId := oid }) }

/-- The write phase shared by upsertAnswer and the batch loop: upsert the
answer row, then fully replace its linked selected options. -/
def applyAnswerWrite (db : DB) (sid qid : Nat) (tv : Option String) (sel : List Nat) :
    Answer × DB :=
  match upsertAnswerRow db sid qid tv with
  | (answer, db1) => (answer, replaceSelections db1 answer.id sel)

/-- The option lookup of upsertAnswer: options whose id is among the
de-duplicated selection and which belong to the given question. -/
def optionsFoundFor (db : DB) (qid : Nat) (ids : List Nat) : List QuestionOption :=
  db.options.filter (fun o => ids.contains o.id && o.questionId == qid)

/-- SubmissionsService.upsertAnswer: preconditions (submission exists and
is in_progress, caller is the respondent, question exists and belongs to
the form), shape validation of the payload, then the write: upsert the
answer row and fully replace its selected options. The de-duplicated
selection, bound once in the code, is written out at each use here. -/
def SubmissionsService.upsertAnswer (db : DB) (submissionId userId : Nat)
    (dto : UpsertAnswerDTO) : Except Err Answer × DB :=
  match db.submissions.find? (fun s => s.id == submissionId) with
  | none => (Except.error (Err.notFound "Submission not found"), db)
  | some s =>
    if s.status != SubmissionStatus.in_progress then
      (Except.error (Err.forbidden "Submission is not in progress"), db)
    else if s.respondentUserId != userId then
      (Except.error (Err.forbidden "You can only answer your own submission"), db)
    else
      match db.questions.find? (fun q => q.id == dto.questionId) with
      | none => (Except.error (Err.notFound "Question not found"), db)
      | some question =>
        if question.formId != s.formId then
          (Except.error (Err.badRequest "Question does not belong to this form" none), db)
        else if question.type == QuestionType.text then
          if (match dto.selectedOptionIds with
              | some l => decide (0 < l.length)
              | none => false) then
            (Except.error (Err.badRequest "Text questions cannot have selectedOptionIds" none), db)
          else if dto.textValue == none then
            (Except.error (Err.badRequest "textValue is required for text questions" none), db)
          else
            (Except.ok (applyAnswerWrite db submissionId question.id dto.textValue []).1,
              (applyAnswerWrite db submissionId question.id dto.textValue []).2)
        else
          if dto.textValue != none then
            (Except.error (Err.badRequest "Checkbox/Radio questions cannot have textValuey" none), db)
          else
            if question.type == QuestionType.radio
                && decide (1 < (dedupIds (dto.selectedOptionIds.getD [])).length) then
              (Except.error (Err.badRequest "Radio questions allow only one selected option" none), db)
            else
              if 0 < (dedupIds (dto.selectedOptionIds.getD [])).length
                  && (optionsFoundFor db question.id (dedupIds (dto.selectedOptionIds.getD []))).length
                      != (dedupIds (dto.selectedOptionIds.getD [])).length then
                (Except.error
                  (Err.badRequest "One or more selected options are invalid for this question" none), db)
              else
                (Except.ok (applyAnswerWrite db submissionId question.id none
                    (dedupIds (dto.selectedOptionIds.getD []))).1,
                  (applyAnswerWrite db submissionId question.id none
                    (dedupIds (dto.selectedOptionIds.getD []))).2)

/-- One iteration of the batch transaction loop: shape-validate the
payload against its question (found by the non-null assertion on the
preloaded question list) and perform the same write as upsertAnswer.
There is no option-ownership check in this loop. -/
def batchWriteOne (db : DB) (sid : Nat) (questions : List Question)
    (dto : UpsertAnswerDTO) : Except Err DB :=
  match questions.find? (fun x => x.id == dto.questionId) with
  | none => Except.error (Err.badRequest "Question not found" none)
  | some question =>
    if question.type == QuestionType.text then
      if (match dto.selectedOptionIds with
          | some l => decide (0 < l.length)
          | none => false) then
        Except.error (Err.badRequest "Text questions cannot have selectedOptionIds" none)
      else if dto.textValue == none then
        Except.error (Err.badRequest "textValue is required for text questions" none)
      else
        Except.ok (applyAnswerWrite db sid question.id dto.textValue []).2
    else
      if dto.textValue != none then
        Except.error (Err.badRequest "Checkbox/Radio questions cannot have textValuey" none)
      else
        if question.type == QuestionType.radio
            && decide (1 < (dedupIds (dto.selectedOptionIds.getD [])).length) then
          Except.error (Err.badRequest "Radio questions allow only one selected option" none)
        else
          Except.ok (applyAnswerWrite db sid question.id none
            (dedupIds (dto.selectedOptionIds.getD []))).2

/-- The body of prisma.transaction in upsertAnswersAndSubmit: apply the
per-answer writes left to right; an error anywhere rolls the whole
transaction back (the caller keeps the pre-state). -/
def batchWrites (db : DB) (sid : Nat) (questions : List Question) :
    List UpsertAnswerDTO → Except Err DB
  | [] => Except.ok db
  | dto :: rest =>
    match batchWriteOne db sid questions dto with
    | Except.error e => Except.error e
    | Except.ok db1 => batchWrites db1 sid questions rest

/-- The de-duplicated question ids referenced by a batch. -/
def batchQuestionIds (dtos : List UpsertAnswerDTO) : List Nat :=
  dedupIds (dtos.map (fun d => d.questionId))

/-- The question rows loaded for a batch: those whose id is referenced. -/
def batchQuestions (db : DB) (dtos : List UpsertAnswerDTO) : List Question :=
  db.questions.filter (fun q => (batchQuestionIds dtos).contains q.id)

/-- The de-duplicated option ids referenced anywhere in a batch. -/
def batchOptionIds (dtos : List UpsertAnswerDTO) : List Nat :=
  dedupIds (dtos.flatMap (fun d => d.selectedOptionIds.getD []))

/-- The option rows found for a batch pre-check: the lookup filters on id
membership only and never compares the owning question. -/
def batchFoundOptions (db : DB) (dtos : List UpsertAnswerDTO) : List QuestionOption :=
  db.options.filter (fun o => (batchOptionIds dtos).contains o.id)

/-- SubmissionsService.upsertAnswersAndSubmit: preconditions, the batch
pre-checks (all questions exist and belong to the form; all referenced
option ids exist somewhere), the transactional per-answer writes, and
then a call to submit on the committed state. -/
def SubmissionsService.upsertAnswersAndSubmit (db : DB) (submissionId userId : Nat)
    (dtos : List UpsertAnswerDTO) : Except Err Submission × DB :=
  match db.submissions.find? (fun s => s.id == submissionId) with
  | none => (Except.error (Err.notFound "Submission not found"), db)
  | some s =>
    if s.status != SubmissionStatus.in_progress then
      (Except.error (Err.forbidden "Submission is not in progress"), db)
    else if s.respondentUserId != userId then
      (Except.error (Err.forbidden "You can only answer your own submission"), db)
    else
      if (batchQuestions db dtos).length != (batchQuestionIds dtos).length then
        (Except.error (Err.badRequest "One or more questions not found" none), db)
      else if (batchQuestions db dtos).any (fun q => q.formId != s.formId) then
        (Except.error (Err.badRequest "Question does not belong to this form" none), db)
      else
        if 0 < (batchOptionIds dtos).length
            && (batchFoundOptions db dtos).length != (batchOptionIds dtos).length then
          (Except.error (Err.badRequest "One or more selected options are invalid" none), db)
        else
          match batchWrites db submissionId (batchQuestions db dtos) dtos with
          | Except.error e => (Except.error e, db)
          | Except.ok db1 => SubmissionsService.submit db1 submissionId userId

/-- The permission helper succeeds exactly for administrators and for
creators acting on their own form. -/
theorem canStartUnpublishedForm_eq_true_iff (role : UserRole) (userId ownerUserId : Nat) :
    canStartUnpublishedForm role userId ownerUserId = true
      ↔ (role = UserRole.admin ∨ (role = UserRole.creator ∧ userId = ownerUserId)) := by
  rcases role with _ | _ | _ <;> simp [canStartUnpublishedForm]

/-- A concrete state for claim C9: one unpublished form owned by user 5. -/
def dbC9 : DB :=
  { forms := [{ id := 1, isPublished := false, ownerUserId := 5 }]
    questions := []
    options := []
    submissions := []
    answers := []
    selections := []
    nextId := 10
    now := 0 }

/-- Claim C9 counterexample: on the unpublished form of dbC9, owned by
user 5, the owner calling start with role common is rejected with
Forbidden, although the claim says the owner may start regardless of the
role of the owner. -/
theorem c9_owner_common_rejected :
    (SubmissionsService.start dbC9 1 5 UserRole.common).1
        = Except.error (Err.forbidden "Form is not published")
    ∧ dbC9.forms = [{ id := 1, isPublished := false, ownerUserId := 5 }] := by
  constructor
  · rfl
  · rfl

/-- Claim C9 (amended): start against an unpublished form fails with the
Forbidden error exactly when the actor is neither an administrator nor a
creator who owns the form; against a published form that error never
occurs. -/
theorem c9_start_unpublished_forbidden_iff (db : DB) (formId userId : Nat)
    (role : UserRole) (form : Form)
    (hf : db.forms.find? (fun f => f.id == formId) = some form) :
    (form.isPublished = false →
      ((SubmissionsService.start db formId userId role).1
          = Except.error (Err.forbidden "Form is not published")
        ↔ ¬(role = UserRole.admin ∨ (role = UserRole.creator ∧ userId = form.ownerUserId))))
    ∧ (form.isPublished = true →
      (SubmissionsService.start db formId userId role).1
        ≠ Except.error (Err.forbidden "Form is not published")) := by
  constructor
  · intro hpub
    simp only [SubmissionsService.start, hf, hpub]
    rcases hcan : canStartUnpublishedForm role userId form.ownerUserId with _ | _
    · simp only [Bool.not_false, Bool.not_true, Bool.and_true, if_pos]
      rw [← canStartUnpublishedForm_eq_true_iff role userId form.ownerUserId, hcan]
      simp
    · have hramp : canStartUnpublishedForm role userId form.ownerUserId = true := hcan
      rw [canStartUnpublishedForm_eq_true_iff] at hramp
      simp only [hcan, Bool.not_true, Bool.and_false, Bool.false_and]
      rcases hfind : db.submissions.find? (isInProgressFor formId userId) with _ | e <;>
        simp [hfind, hramp]
  · intro hpub
    simp only [SubmissionsService.start, hf, hpub]
    simp only [Bool.not_true, Bool.false_and]
    rcases hfind : db.submissions.find? (isInProgressFor formId userId) with _ | e <;>
      simp [hfind]

/-- Witness for the amended claim C9 at a concrete state: dbC9 with the
owner acting as role common (the iff then makes the call fail). -/
theorem c9_start_unpublished_forbidden_iff_witness :
    ((false = false →
      ((SubmissionsService.start dbC9 1 5 UserRole.common).1
          = Except.error (Err.forbidden "Form is not published")
        ↔ ¬(UserRole.common = UserRole.admin
            ∨ (UserRole.common = UserRole.creator ∧ 5 = 5))))
    ∧ (false = true →
      (SubmissionsService.start dbC9 1 5 UserRole.common).1
        ≠ Except.error (Err.forbidden "Form is not published"))) :=
  c9_start_unpublished_forbidden_iff dbC9 1 5 UserRole.common
    { id := 1, isPublished := false, ownerUserId := 5 } (by decide)

/-- Spec-side satisfaction predicate, transcribed from the wording of
claim C1 rather than from the code: a required text question needs
non-blank trimmed stored text; for a choice question with count linked
selected options, required with unset minChoices forces count at least 1,
a set minChoices is a lower bound, a set maxChoices an upper bound, and a
radio question needs exactly one selection when required, at most one
otherwise. -/
def specQuestionSatisfied (db : DB) (sid : Nat) (q : Question) : Bool :=
  if q.type == QuestionType.text then
    (if q.isRequired then storedHasText (lastAnswerFor (answersOf db sid) q.id) else true)
  else
    (if q.isRequired && q.minChoices == none then
      decide (1 ≤ storedCount db (lastAnswerFor (answersOf db sid) q.id)) else true)
    && (match q.minChoices with
        | some m => decide (m ≤ storedCount db (lastAnswerFor (answersOf db sid) q.id))
        | none => true)
    && (match q.maxChoices with
        | some m => decide (storedCount db (lastAnswerFor (answersOf db sid) q.id) ≤ m)
        | none => true)
    && (if q.type == QuestionType.radio then
          (if q.isRequired then storedCount db (lastAnswerFor (answersOf db sid) q.id) == 1
           else decide (storedCount db (lastAnswerFor (answersOf db sid) q.id) ≤ 1))
        else true)

/-- The per-question completeness check of the code passes exactly when
the satisfaction predicate of the claim holds. -/
theorem validateQuestionAtSubmit_eq_none_iff (db : DB) (sid : Nat) (q : Question) :
    validateQuestionAtSubmit db sid q = none ↔ specQuestionSatisfied db sid q = true := by
  unfold validateQuestionAtSubmit specQuestionSatisfied
  generalize storedHasText (lastAnswerFor (answersOf db sid) q.id) = ht
  generalize storedCount db (lastAnswerFor (answersOf db sid) q.id) = c
  rcases q with ⟨qid, qf, qt, req, minC, maxC, oi⟩
  rcases qt <;> rcases req <;> rcases ht <;>
    rcases minC with _ | m <;> rcases maxC with _ | mm <;>
    simp <;> (try split_ifs) <;> (try simp_all) <;> (try omega)

/-- The fail-fast loop returns no error exactly when every question of
the list passes its check. -/
theorem firstViolation_eq_none_iff (db : DB) (sid : Nat) (qs : List Question) :
    firstViolation db sid qs = none ↔ ∀ q ∈ qs, validateQuestionAtSubmit db sid q = none := by
  induction qs with
  | nil => simp [firstViolation]
  | cons q rest ih =>
    rcases hv : validateQuestionAtSubmit db sid q with _ | e <;>
      simp [firstViolation, hv, ih]

/-- Claim C1: for an in_progress submission submitted by its respondent,
submit succeeds, transitioning the submission to submitted, exactly when
every question of the form is satisfied by the persisted answers in the
sense of specQuestionSatisfied. -/
theorem c1_submit_ok_iff_all_satisfied (db : DB) (submissionId userId : Nat)
    (s : Submission)
    (hs : db.submissions.find? (fun t => t.id == submissionId) = some s)
    (hstat : s.status = SubmissionStatus.in_progress)
    (hresp : s.respondentUserId = userId) :
    ((∀ q ∈ questionsOfForm db s.formId, specQuestionSatisfied db submissionId q = true)
      ↔ ∃ s2, (SubmissionsService.submit db submissionId userId).1 = Except.ok s2
          ∧ s2.status = SubmissionStatus.submitted) := by
  simp only [SubmissionsService.submit, hs, hstat, hresp, bne_self_eq_false,
    Bool.false_eq_true, if_false]
  rcases hv : firstViolation db submissionId (questionsOfForm db s.formId) with _ | e
  · rw [firstViolation_eq_none_iff] at hv
    simp only [hv]
    constructor
    · intro _
      exact ⟨_, rfl, rfl⟩
    · intro _ q hq
      rw [← validateQuestionAtSubmit_eq_none_iff]
      exact hv q hq
  · simp only [hv]
    constructor
    · intro hall
      exfalso
      have hnone : firstViolation db submissionId (questionsOfForm db s.formId) = none := by
        rw [firstViolation_eq_none_iff]
        intro q hq
        rw [validateQuestionAtSubmit_eq_none_iff]
        exact hall q hq
      rw [hv] at hnone
      exact Option.some_ne_none e hnone
    · intro h
      rcases h with ⟨s2, h2, _⟩
      exact absurd h2 (by simp)

/-- An in_progress submission for the concrete states below. -/
def subC1 : Submission :=
  { id := 10
    formId := 1
    respondentUserId := 7
    status := SubmissionStatus.in_progress
    startedAt := 0
    submittedAt := none }

/-- A concrete state for the claim C1 witness: one published form with a
required text question answered with the stored text hello. -/
def dbC1 : DB :=
  { forms := [{ id := 1, isPublished := true, ownerUserId := 5 }]
    questions := [
      { id := 2
        formId := 1
        type := QuestionType.text
        isRequired := true
        minChoices := none
        maxChoices := none
        orderIndex := 0 }]
    options := []
    submissions := [subC1]
    answers := [{ id := 15, submissionId := 10, questionId := 2, textValue := some "hello" }]
    selections := []
    nextId := 20
    now := 3 }

/-- Witness for claim C1 at the concrete state dbC1. -/
theorem c1_submit_ok_iff_all_satisfied_witness :
    ((∀ q ∈ questionsOfForm dbC1 1, specQuestionSatisfied dbC1 10 q = true)
      ↔ ∃ s2, (SubmissionsService.submit dbC1 10 7).1 = Except.ok s2
          ∧ s2.status = SubmissionStatus.submitted) :=
  c1_submit_ok_iff_all_satisfied dbC1 10 7 subC1 (by decide) rfl rfl

/-- If the find-first search locates a violating question, the fail-fast
loop reports exactly the error of that question. -/
theorem firstViolation_eq_of_find? (db : DB) (sid : Nat) (qs : List Question) (q : Question)
    (hq : qs.find? (fun t => (validateQuestionAtSubmit db sid t).isSome) = some q) :
    ∃ e, validateQuestionAtSubmit db sid q = some e ∧ firstViolation db sid qs = some e := by
  induction qs with
  | nil => simp at hq
  | cons q0 rest ih =>
    rcases hv : validateQuestionAtSubmit db sid q0 with _ | e
    · have hneg : ¬((fun t => (validateQuestionAtSubmit db sid t).isSome) q0 = true) := by
        simp [hv]
      rw [List.find?_cons_of_neg rest hneg] at hq
      rcases ih hq with ⟨e, he, hfv⟩
      exact ⟨e, he, by simp [firstViolation, hv, hfv]⟩
    · have hpos : (fun t => (validateQuestionAtSubmit db sid t).isSome) q0 = true := by
        simp [hv]
      rw [List.find?_cons_of_pos rest hpos, Option.some.injEq] at hq
      subst hq
      exact ⟨e, hv, by simp [firstViolation, hv]⟩

/-- First stored question for the C7 state: id 2, orderIndex 1. -/
def qC7first : Question :=
  { id := 2
    formId := 1
    type := QuestionType.text
    isRequired := true
    minChoices := none
    maxChoices := none
    orderIndex := 1 }

/-- Second stored question for the C7 state: id 3, orderIndex 0. -/
def qC7second : Question :=
  { id := 3
    formId := 1
    type := QuestionType.text
    isRequired := true
    minChoices := none
    maxChoices := none
    orderIndex := 0 }

/-- Two text questions, both required and unanswered, stored in an order
that disagrees with their orderIndex values: question 2 sits first in the
table with orderIndex 1, question 3 second with orderIndex 0. -/
def dbC7 : DB :=
  { forms := [{ id := 1, isPublished := true, ownerUserId := 5 }]
    questions := [qC7first, qC7second]
    options := []
    submissions := [subC1]
    answers := []
    selections := []
    nextId := 20
    now := 3 }

/-- Claim C7 counterexample: in dbC7 both questions violate, question 3
has the smaller orderIndex, yet submit reports question 2, the first row
in stored order. The questions query applies no orderIndex ordering. -/
theorem c7_reports_stored_order_not_orderIndex :
    (SubmissionsService.submit dbC7 10 7).1
        = Except.error (Err.badRequest "Missing required text answer" (some 2))
    ∧ (∃ qa ∈ questionsOfForm dbC7 1, qa.id = 3 ∧ qa.orderIndex = 0
        ∧ validateQuestionAtSubmit dbC7 10 qa ≠ none)
    ∧ (∃ qb ∈ questionsOfForm dbC7 1, qb.id = 2 ∧ qb.orderIndex = 1) := by
  refine ⟨rfl, ?_, ?_⟩
  · exact ⟨qC7second, by decide, rfl, rfl, by decide⟩
  · exact ⟨qC7first, by decide, rfl, rfl⟩

/-- Claim C7 (amended): the completeness check is deterministic and
fail-fast over the stored order of the form questions (the order the
persistence layer returns, with no orderIndex sorting applied): submit
reports exactly the error of the first violating question in that order. -/
theorem c7_submit_reports_first_stored_violation (db : DB) (submissionId userId : Nat)
    (s : Submission) (q : Question)
    (hs : db.submissions.find? (fun t => t.id == submissionId) = some s)
    (hstat : s.status = SubmissionStatus.in_progress)
    (hresp : s.respondentUserId = userId)
    (hq : (questionsOfForm db s.formId).find?
        (fun t => (validateQuestionAtSubmit db submissionId t).isSome) = some q) :
    ∃ e, validateQuestionAtSubmit db submissionId q = some e
      ∧ (SubmissionsService.submit db submissionId userId).1 = Except.error e := by
  rcases firstViolation_eq_of_find? db submissionId (questionsOfForm db s.formId) q hq with
    ⟨e, he, hfv⟩
  refine ⟨e, he, ?_⟩
  simp only [SubmissionsService.submit, hs, hstat, hresp, bne_self_eq_false,
    Bool.false_eq_true, if_false, hfv]

/-- Witness for the amended claim C7 at the concrete state dbC7. -/
theorem c7_submit_reports_first_stored_violation_witness :
    ∃ e, validateQuestionAtSubmit dbC7 10 qC7first = some e
      ∧ (SubmissionsService.submit dbC7 10 7).1 = Except.error e :=
  c7_submit_reports_first_stored_violation dbC7 10 7 subC1 qC7first
    (by decide) rfl rfl (by decide)

/-- The answer upsert never touches the submissions table. -/
theorem upsertAnswerRow_submissions (db : DB) (sid qid : Nat) (tv : Option String) :
    (upsertAnswerRow db sid qid tv).2.submissions = db.submissions := by
  unfold upsertAnswerRow
  split <;> rfl

/-- The selection replacement never touches the submissions table. -/
theorem replaceSelections_submissions (db : DB) (answerId : Nat) (optionIds : List Nat) :
    (replaceSelections db answerId optionIds).submissions = db.submissions := rfl

/-- The combined answer write never touches the submissions table. -/
theorem applyAnswerWrite_submissions (db : DB) (sid qid : Nat) (tv : Option String)
    (sel : List Nat) :
    (applyAnswerWrite db sid qid tv sel).2.submissions = db.submissions := by
  unfold applyAnswerWrite
  rcases hrow : upsertAnswerRow db sid qid tv with ⟨a, db1⟩
  have hs := upsertAnswerRow_submissions db sid qid tv
  rw [hrow] at hs
  simpa [replaceSelections] using hs

/-- upsertAnswer never touches the submissions table. -/
theorem upsertAnswer_submissions (db : DB) (sid uid : Nat) (dto : UpsertAnswerDTO) :
    (SubmissionsService.upsertAnswer db sid uid dto).2.submissions = db.submissions := by
  unfold SubmissionsService.upsertAnswer
  repeat' split
  all_goals first
    | rfl
    | simp [applyAnswerWrite_submissions]

/-- A successful batch write step never touches the submissions table. -/
theorem batchWriteOne_submissions (db : DB) (sid : Nat) (qs : List Question)
    (dto : UpsertAnswerDTO) (db1 : DB) (h : batchWriteOne db sid qs dto = Except.ok db1) :
    db1.submissions = db.submissions := by
  unfold batchWriteOne at h
  repeat' split at h
  all_goals cases h
  all_goals simp [applyAnswerWrite_submissions]

/-- A successful batch transaction never touches the submissions table. -/
theorem batchWrites_submissions (sid : Nat) (qs : List Question) :
    ∀ (dtos : List UpsertAnswerDTO) (db db1 : DB),
      batchWrites db sid qs dtos = Except.ok db1 → db1.submissions = db.submissions := by
  intro dtos
  induction dtos with
  | nil =>
    intro db db1 h
    cases h
    rfl
  | cons dto rest ih =>
    intro db db1 h
    unfold batchWrites at h
    rcases hw : batchWriteOne db sid qs dto with e | db2
    · simp only [hw] at h
      cases h
    · simp only [hw] at h
      rw [ih db2 db1 h, batchWriteOne_submissions db sid qs dto db2 hw]

/-- submit keeps every submission row that is not in_progress: the only
row it rewrites is the in_progress row it finalizes. -/
theorem submit_preserves_settled_rows (db : DB) (sid2 uid : Nat) (s : Submission)
    (hmem : s ∈ db.submissions) (hstat : s.status ≠ SubmissionStatus.in_progress)
    (hnodup : (db.submissions.map (fun t => t.id)).Nodup) :
    s ∈ (SubmissionsService.submit db sid2 uid).2.submissions := by
  unfold SubmissionsService.submit
  split
  · simpa using hmem
  next s2 hf =>
    split
    · simpa using hmem
    next hst =>
      split
      · simpa using hmem
      · split
        · simpa using hmem
        · have hs2mem : s2 ∈ db.submissions := List.mem_of_find?_eq_some hf
          have hs2id : s2.id = sid2 := by simpa using List.find?_some hf
          have hs2prog : s2.status = SubmissionStatus.in_progress := by
            simpa using hst
          have hsid : ¬(s.id = sid2) := by
            intro hcontra
            have heq : s = s2 :=
              List.inj_on_of_nodup_map hnodup hmem hs2mem (by rw [hcontra, hs2id])
            rw [heq, hs2prog] at hstat
            exact hstat rfl
          simp only []
          refine List.mem_map.mpr ⟨s, hmem, ?_⟩
          simp [hsid]

/-- Claim C2: a submission whose status is not in_progress is immutable.
The three mutating operations applied to it fail with the Forbidden
not-in-progress error and leave the state untouched, and no operation of
the service, at any arguments, removes or rewrites the settled row. -/
theorem c2_submitted_immutable (db : DB) (sid : Nat) (s : Submission)
    (hs : db.submissions.find? (fun t => t.id == sid) = some s)
    (hstat : s.status ≠ SubmissionStatus.in_progress)
    (hnodup : (db.submissions.map (fun t => t.id)).Nodup) :
    (∀ uid dto, SubmissionsService.upsertAnswer db sid uid dto
        = (Except.error (Err.forbidden "Submission is not in progress"), db))
    ∧ (∀ uid dtos, SubmissionsService.upsertAnswersAndSubmit db sid uid dtos
        = (Except.error (Err.forbidden "Submission is not in progress"), db))
    ∧ (∀ uid, SubmissionsService.submit db sid uid
        = (Except.error (Err.forbidden "Submission is not in progress"), db))
    ∧ (∀ formId uid role, s ∈ (SubmissionsService.start db formId uid role).2.submissions)
    ∧ (∀ sid2 uid, s ∈ (SubmissionsService.submit db sid2 uid).2.submissions)
    ∧ (∀ sid2 uid dto, s ∈ (SubmissionsService.upsertAnswer db sid2 uid dto).2.submissions)
    ∧ (∀ sid2 uid dtos,
        s ∈ (SubmissionsService.upsertAnswersAndSubmit db sid2 uid dtos).2.submissions) := by
  have hbne : (s.status != SubmissionStatus.in_progress) = true := by
    simpa using hstat
  have hmem : s ∈ db.submissions := List.mem_of_find?_eq_some hs
  refine ⟨?_, ?_, ?_, ?_, ?_, ?_, ?_⟩
  · intro uid dto
    simp only [SubmissionsService.upsertAnswer, hs, hbne, if_true]
  · intro uid dtos
    simp only [SubmissionsService.upsertAnswersAndSubmit, hs, hbne, if_true]
  · intro uid
    simp only [SubmissionsService.submit, hs, hbne, if_true]
  · intro formId uid role
    unfold SubmissionsService.start
    split
    · simpa using hmem
    · split
      · simpa using hmem
      · split
        · simpa using hmem
        · simp only []
          exact List.mem_append_left _ hmem
  · intro sid2 uid
    exact submit_preserves_settled_rows db sid2 uid s hmem hstat hnodup
  · intro sid2 uid dto
    rw [upsertAnswer_submissions]
    exact hmem
  · intro sid2 uid dtos
    unfold SubmissionsService.upsertAnswersAndSubmit
    split
    · simpa using hmem
    next s2 hf =>
      split
      · simpa using hmem
      · split
        · simpa using hmem
        · split
          · simpa using hmem
          · split
            · simpa using hmem
            · split
              · simpa using hmem
              · split
                next e hw => simpa using hmem
                next db1 hw =>
                  have hsub : db1.submissions = db.submissions :=
                    batchWrites_submissions sid2 _ _ db db1 hw
                  apply submit_preserves_settled_rows db1 sid2 uid s
                  · rw [hsub]
                    exact hmem
                  · exact hstat
                  · rw [hsub]
                    exact hnodup

/-- A settled (submitted) submission row for the C2 witness state. -/
def subC2 : Submission :=
  { id := 11
    formId := 1
    respondentUserId := 7
    status := SubmissionStatus.submitted
    startedAt := 0
    submittedAt := some 1 }

/-- A concrete state for the claim C2 witness: one submitted submission. -/
def dbC2 : DB :=
  { forms := [{ id := 1, isPublished := true, ownerUserId := 5 }]
    questions := []
    options := []
    submissions := [subC2]
    answers := []
    selections := []
    nextId := 20
    now := 3 }

/-- Witness for claim C2 at the concrete state dbC2. -/
theorem c2_submitted_immutable_witness :
    (∀ uid dto, SubmissionsService.upsertAnswer dbC2 11 uid dto
        = (Except.error (Err.forbidden "Submission is not in progress"), dbC2))
    ∧ (∀ uid dtos, SubmissionsService.upsertAnswersAndSubmit dbC2 11 uid dtos
        = (Except.error (Err.forbidden "Submission is not in progress"), dbC2))
    ∧ (∀ uid, SubmissionsService.submit dbC2 11 uid
        = (Except.error (Err.forbidden "Submission is not in progress"), dbC2))
    ∧ (∀ formId uid role, subC2 ∈ (SubmissionsService.start dbC2 formId uid role).2.submissions)
    ∧ (∀ sid2 uid, subC2 ∈ (SubmissionsService.submit dbC2 sid2 uid).2.submissions)
    ∧ (∀ sid2 uid dto, subC2 ∈ (SubmissionsService.upsertAnswer dbC2 sid2 uid dto).2.submissions)
    ∧ (∀ sid2 uid dtos,
        subC2 ∈ (SubmissionsService.upsertAnswersAndSubmit dbC2 sid2 uid dtos).2.submissions) :=
  c2_submitted_immutable dbC2 11 subC2 (by decide) (by decide) (by decide)

/-- The storage uniqueness constraint uq_one_in_progress_per_user_form,
generalized over the status column as in the schema: no two distinct
rows share (formId, respondentUserId, status). -/
def submissionKeyUnique (db : DB) : Prop :=
  db.submissions.Pairwise (fun a b =>
    ¬(a.formId = b.formId ∧ a.respondentUserId = b.respondentUserId ∧ a.status = b.status))

instance (db : DB) : Decidable (submissionKeyUnique db) := by
  unfold submissionKeyUnique
  infer_instance

/-- How many in_progress submissions exist for one (form, respondent). -/
def inProgressCount (db : DB) (formId userId : Nat) : Nat :=
  (db.submissions.filter (isInProgressFor formId userId)).length

/-- Under the storage uniqueness constraint, a successful existence
lookup means exactly one in_progress row for the pair. -/
theorem inProgressCount_eq_one_of_find?_some (db : DB) (formId userId : Nat)
    (e : Submission) (hpair : submissionKeyUnique db)
    (hf : db.submissions.find? (isInProgressFor formId userId) = some e) :
    inProgressCount db formId userId = 1 := by
  have hmem : e ∈ db.submissions := List.mem_of_find?_eq_some hf
  have hpe : isInProgressFor formId userId e = true := List.find?_some hf
  have hmemf : e ∈ db.submissions.filter (isInProgressFor formId userId) :=
    List.mem_filter.mpr ⟨hmem, hpe⟩
  have hsl : List.Sublist (db.submissions.filter (isInProgressFor formId userId))
      db.submissions :=
    List.filter_sublist db.submissions
  have hpf := List.Pairwise.sublist hsl hpair
  unfold inProgressCount
  rcases hfl : db.submissions.filter (isInProgressFor formId userId) with _ | ⟨x, rest⟩
  · rw [hfl] at hmemf
    cases hmemf
  · rcases rest with _ | ⟨y, rest2⟩
    · rfl
    · exfalso
      rw [hfl] at hpf
      have hrel := (List.pairwise_cons.mp hpf).1 y (by simp)
      have hx : isInProgressFor formId userId x = true := by
        have hxm : x ∈ db.submissions.filter (isInProgressFor formId userId) := by
          rw [hfl]
          simp
        exact (List.mem_filter.mp hxm).2
      have hy : isInProgressFor formId userId y = true := by
        have hym : y ∈ db.submissions.filter (isInProgressFor formId userId) := by
          rw [hfl]
          simp
        exact (List.mem_filter.mp hym).2
      simp only [isInProgressFor, Bool.and_eq_true, beq_iff_eq] at hx hy
      exact hrel ⟨hx.1.1.trans hy.1.1.symm, hx.1.2.trans hy.1.2.symm, hx.2.trans hy.2.symm⟩

/-- After a create, the pair has exactly one in_progress row. -/
theorem inProgressCount_create (db : DB) (formId userId : Nat)
    (hf : db.submissions.find? (isInProgressFor formId userId) = none) :
    inProgressCount
      { db with submissions := db.submissions ++ [startedRow db formId userId]
                nextId := db.nextId + 1 } formId userId = 1 := by
  have hall := List.find?_eq_none.mp hf
  unfold inProgressCount
  simp only [List.filter_append]
  have h1 : db.submissions.filter (isInProgressFor formId userId) = [] :=
    List.filter_eq_nil_iff.mpr hall
  rw [h1]
  simp [startedRow, isInProgressFor]

/-- Claim C3: start is idempotent per (form, respondent). The first call
returns some row s1; the second call returns the same row and leaves the
state of the first call untouched; exactly one in_progress row exists for
the pair afterwards; and s1 is either the pre-existing row with the whole
state unchanged, or a fresh in_progress row with startedAt = now appended
to the table. -/
theorem c3_start_idempotent (db : DB) (formId userId : Nat) (role : UserRole) (form : Form)
    (hf : db.forms.find? (fun f => f.id == formId) = some form)
    (hallow : form.isPublished = true
      ∨ canStartUnpublishedForm role userId form.ownerUserId = true)
    (hpair : submissionKeyUnique db) :
    ∃ s1, (SubmissionsService.start db formId userId role).1 = Except.ok s1
      ∧ SubmissionsService.start (SubmissionsService.start db formId userId role).2 formId userId role
          = (Except.ok s1, (SubmissionsService.start db formId userId role).2)
      ∧ inProgressCount (SubmissionsService.start db formId userId role).2 formId userId = 1
      ∧ ((db.submissions.find? (isInProgressFor formId userId) = some s1
            ∧ (SubmissionsService.start db formId userId role).2 = db)
        ∨ (db.submissions.find? (isInProgressFor formId userId) = none
            ∧ s1.status = SubmissionStatus.in_progress
            ∧ s1.startedAt = db.now
            ∧ (SubmissionsService.start db formId userId role).2
                = { db with submissions := db.submissions ++ [s1]
                            nextId := db.nextId + 1 })) := by
  have hcond : (!form.isPublished && !canStartUnpublishedForm role userId form.ownerUserId)
      = false := by
    rcases hallow with h | h <;> simp [h]
  rcases hfind : db.submissions.find? (isInProgressFor formId userId) with _ | e
  · have hstart : SubmissionsService.start db formId userId role
        = (Except.ok (startedRow db formId userId),
            { db with submissions := db.submissions ++ [startedRow db formId userId]
                      nextId := db.nextId + 1 }) := by
      simp only [SubmissionsService.start, hf, hcond, Bool.false_eq_true, if_false, hfind]
    have hpred : isInProgressFor formId userId (startedRow db formId userId) = true := by
      simp [startedRow, isInProgressFor]
    have hfind2 : (db.submissions ++ [startedRow db formId userId]).find?
        (isInProgressFor formId userId) = some (startedRow db formId userId) := by
      rw [List.find?_append, hfind]
      simp [hpred]
    refine ⟨startedRow db formId userId, by rw [hstart], ?_, ?_,
      Or.inr ⟨rfl, rfl, rfl, by rw [hstart]⟩⟩
    · rw [hstart]
      simp only [SubmissionsService.start, hf, hcond, Bool.false_eq_true, if_false, hfind2]
    · rw [hstart]
      exact inProgressCount_create db formId userId hfind
  · have hstart : SubmissionsService.start db formId userId role = (Except.ok e, db) := by
      simp only [SubmissionsService.start, hf, hcond, Bool.false_eq_true, if_false, hfind]
    refine ⟨e, by rw [hstart], ?_, ?_, Or.inl ⟨rfl, by rw [hstart]⟩⟩
    · rw [hstart]
      exact hstart
    · rw [hstart]
      exact inProgressCount_eq_one_of_find?_some db formId userId e hpair hfind

/-- A concrete state for the claim C3 witness: a published form and no
existing submission. -/
def dbC3 : DB :=
  { forms := [{ id := 1, isPublished := true, ownerUserId := 5 }]
    questions := []
    options := []
    submissions := []
    answers := []
    selections := []
    nextId := 30
    now := 4 }

/-- Witness for claim C3 at the concrete state dbC3. -/
theorem c3_start_idempotent_witness :
    ∃ s1, (SubmissionsService.start dbC3 1 7 UserRole.common).1 = Except.ok s1
      ∧ SubmissionsService.start (SubmissionsService.start dbC3 1 7 UserRole.common).2 1 7 UserRole.common
          = (Except.ok s1, (SubmissionsService.start dbC3 1 7 UserRole.common).2)
      ∧ inProgressCount (SubmissionsService.start dbC3 1 7 UserRole.common).2 1 7 = 1
      ∧ ((dbC3.submissions.find? (isInProgressFor 1 7) = some s1
            ∧ (SubmissionsService.start dbC3 1 7 UserRole.common).2 = dbC3)
        ∨ (dbC3.submissions.find? (isInProgressFor 1 7) = none
            ∧ s1.status = SubmissionStatus.in_progress
            ∧ s1.startedAt = dbC3.now
            ∧ (SubmissionsService.start dbC3 1 7 UserRole.common).2
                = { dbC3 with submissions := dbC3.submissions ++ [s1]
                              nextId := dbC3.nextId + 1 })) :=
  c3_start_idempotent dbC3 1 7 UserRole.common
    { id := 1, isPublished := true, ownerUserId := 5 }
    (by decide) (Or.inl rfl) (by decide)

/-- A state for claim C5: two required text questions, one in_progress
submission with no answers yet. -/
def dbC5 : DB :=
  { forms := [{ id := 1, isPublished := true, ownerUserId := 5 }]
    questions := [qC7first, qC7second]
    options := []
    submissions := [subC1]
    answers := []
    selections := []
    nextId := 20
    now := 3 }

/-- Claim C5 counterexample: a batch answering only question 2 fails the
submit-time completeness check on question 3, yet the answer written for
question 2 stays committed: the batch is not atomic across the writes
plus the final transition. -/
theorem c5_failed_submit_keeps_batch_writes :
    (SubmissionsService.upsertAnswersAndSubmit dbC5 10 7
        [{ questionId := 2, textValue := some "hi", selectedOptionIds := none }]).1
      = Except.error (Err.badRequest "Missing required text answer" (some 3))
    ∧ (SubmissionsService.upsertAnswersAndSubmit dbC5 10 7
        [{ questionId := 2, textValue := some "hi", selectedOptionIds := none }]).2.answers
      = [{ id := 20, submissionId := 10, questionId := 2, textValue := some "hi" }]
    ∧ dbC5.answers = [] := by
  refine ⟨by decide, by decide, rfl⟩

/-- Claim C5 (amended): the transaction boundary of the batch call. The
call either leaves the state untouched (any rejection before or inside
the per-answer transaction, which is all-or-nothing), or commits all the
per-answer writes and only then invokes submit on the committed state, so
a submit-time completeness failure leaves the per-answer writes visible. -/
theorem c5_batch_transaction_boundary (db : DB) (sid uid : Nat)
    (dtos : List UpsertAnswerDTO) :
    (SubmissionsService.upsertAnswersAndSubmit db sid uid dtos).2 = db
    ∨ ∃ db1, batchWrites db sid (batchQuestions db dtos) dtos = Except.ok db1
        ∧ SubmissionsService.upsertAnswersAndSubmit db sid uid dtos
            = SubmissionsService.submit db1 sid uid := by
  unfold SubmissionsService.upsertAnswersAndSubmit
  split
  · exact Or.inl rfl
  · split
    · exact Or.inl rfl
    · split
      · exact Or.inl rfl
      · split
        · exact Or.inl rfl
        · split
          · exact Or.inl rfl
          · split
            · exact Or.inl rfl
            · split
              next e hw => exact Or.inl rfl
              next db1 hw => exact Or.inr ⟨db1, hw, rfl⟩

/-- A state for claim C6: checkbox question 2 and checkbox question 3 on
the same form, with option 100 belonging to question 3. -/
def dbC6 : DB :=
  { forms := [{ id := 1, isPublished := true, ownerUserId := 5 }]
    questions := [
      { id := 2
        formId := 1
        type := QuestionType.checkbox
        isRequired := false
        minChoices := none
        maxChoices := none
        orderIndex := 0 },
      { id := 3
        formId := 1
        type := QuestionType.checkbox
        isRequired := false
        minChoices := none
        maxChoices := none
        orderIndex := 1 }]
    options := [{ id := 100, questionId := 3 }]
    submissions := [subC1]
    answers := []
    selections := []
    nextId := 20
    now := 3 }

/-- Claim C6 failing input: the batch pre-check only tests that each
referenced option id exists somewhere, never that it belongs to its
stated question, and the transaction loop does not check it either; a
batch answering question 2 with option 100 of question 3 is accepted,
the cross-question link is written, and the submission is finalized. -/
theorem c6_batch_accepts_cross_question_option :
    ((SubmissionsService.upsertAnswersAndSubmit dbC6 10 7
        [{ questionId := 2, textValue := none, selectedOptionIds := some [100] }]).1
      = Except.ok (submittedRow subC1 3))
    ∧ ({ answerId := 20, optionId := 100 } : AnswerSelectedOption)
        ∈ (SubmissionsService.upsertAnswersAndSubmit dbC6 10 7
            [{ questionId := 2, textValue := none, selectedOptionIds := some [100] }]).2.selections
    ∧ (∃ o ∈ dbC6.options, o.id = 100 ∧ o.questionId = 3)
    ∧ (∃ a ∈ (SubmissionsService.upsertAnswersAndSubmit dbC6 10 7
            [{ questionId := 2, textValue := none, selectedOptionIds := some [100] }]).2.answers,
        a.id = 20 ∧ a.questionId = 2) := by
  refine ⟨rfl, by decide, by decide, by decide⟩

/-- Claim C10: a submitted submission does not block restarting. With no
in_progress row for the pair, start creates and returns a fresh
in_progress row, both rows then coexist for the same (form, respondent),
and the (formId, respondentUserId, status) uniqueness constraint still
holds on the new state. -/
theorem c10_submitted_does_not_block_restart (db : DB) (formId userId : Nat)
    (role : UserRole) (form : Form) (sub : Submission)
    (hf : db.forms.find? (fun f => f.id == formId) = some form)
    (hpub : form.isPublished = true)
    (hmem : sub ∈ db.submissions)
    (hsubm : sub.formId = formId)
    (hresp : sub.respondentUserId = userId)
    (hstat : sub.status = SubmissionStatus.submitted)
    (hnone : db.submissions.find? (isInProgressFor formId userId) = none)
    (hpair : submissionKeyUnique db) :
    (SubmissionsService.start db formId userId role).1
        = Except.ok (startedRow db formId userId)
    ∧ (startedRow db formId userId).status = SubmissionStatus.in_progress
    ∧ (SubmissionsService.start db formId userId role).2.submissions
        = db.submissions ++ [startedRow db formId userId]
    ∧ sub ∈ (SubmissionsService.start db formId userId role).2.submissions
    ∧ startedRow db formId userId ∈ (SubmissionsService.start db formId userId role).2.submissions
    ∧ submissionKeyUnique (SubmissionsService.start db formId userId role).2 := by
  have hcond : (!form.isPublished && !canStartUnpublishedForm role userId form.ownerUserId)
      = false := by
    simp [hpub]
  have hstart : SubmissionsService.start db formId userId role
      = (Except.ok (startedRow db formId userId),
          { db with submissions := db.submissions ++ [startedRow db formId userId]
                    nextId := db.nextId + 1 }) := by
    simp only [SubmissionsService.start, hf, hcond, Bool.false_eq_true, if_false, hnone]
  rw [hstart]
  have hall := List.find?_eq_none.mp hnone
  refine ⟨rfl, rfl, rfl, List.mem_append_left _ hmem, by simp, ?_⟩
  unfold submissionKeyUnique
  simp only []
  rw [List.pairwise_append]
  refine ⟨hpair, by simp, ?_⟩
  intro a ha b hb
  have hb2 : b = startedRow db formId userId := by simpa using hb
  subst hb2
  intro hcontra
  apply hall a ha
  simp only [isInProgressFor, startedRow] at hcontra ⊢
  simp [hcontra.1, hcontra.2.1, hcontra.2.2]

/-- A state for the claim C10 witness: one submitted submission for the
pair and a published form. -/
def dbC10 : DB :=
  { forms := [{ id := 1, isPublished := true, ownerUserId := 5 }]
    questions := []
    options := []
    submissions := [subC2]
    answers := []
    selections := []
    nextId := 40
    now := 9 }

/-- Witness for claim C10 at the concrete state dbC10. -/
theorem c10_submitted_does_not_block_restart_witness :
    (SubmissionsService.start dbC10 1 7 UserRole.common).1
        = Except.ok (startedRow dbC10 1 7)
    ∧ (startedRow dbC10 1 7).status = SubmissionStatus.in_progress
    ∧ (SubmissionsService.start dbC10 1 7 UserRole.common).2.submissions
        = dbC10.submissions ++ [startedRow dbC10 1 7]
    ∧ subC2 ∈ (SubmissionsService.start dbC10 1 7 UserRole.common).2.submissions
    ∧ startedRow dbC10 1 7 ∈ (SubmissionsService.start dbC10 1 7 UserRole.common).2.submissions
    ∧ submissionKeyUnique (SubmissionsService.start dbC10 1 7 UserRole.common).2 :=
  c10_submitted_does_not_block_restart dbC10 1 7 UserRole.common
    { id := 1, isPublished := true, ownerUserId := 5 } subC2
    (by decide) rfl (by decide) rfl rfl rfl (by decide) (by decide)

/-- Membership in the dedup helper: kept exactly when present in the
remaining input and not already seen. -/
theorem mem_dedupAux (l : List Nat) : ∀ (seen : List Nat) (x : Nat),
    x ∈ dedupAux l seen ↔ x ∈ l ∧ x ∉ seen := by
  induction l with
  | nil => intro seen x; simp [dedupAux]
  | cons a rest ih =>
    intro seen x
    by_cases ha : a ∈ seen
    · simp only [dedupAux, if_pos ha, ih, List.mem_cons]
      constructor
      · rintro ⟨h1, h2⟩
        exact ⟨Or.inr h1, h2⟩
      · rintro ⟨h1 | h1, h2⟩
        · subst h1
          exact absurd ha h2
        · exact ⟨h1, h2⟩
    · simp only [dedupAux, if_neg ha, List.mem_cons, ih]
      constructor
      · rintro (rfl | ⟨h1, h2⟩)
        · exact ⟨Or.inl rfl, ha⟩
        · refine ⟨Or.inr h1, ?_⟩
          intro hc
          exact h2 (Or.inr hc)
      · rintro ⟨rfl | h1, h2⟩
        · exact Or.inl rfl
        · by_cases hxa : x = a
          · exact Or.inl hxa
          · refine Or.inr ⟨h1, ?_⟩
            rintro (hc | hc)
            · exact hxa hc
            · exact h2 hc

/-- The de-duplicated list has the same members as the input. -/
theorem mem_dedupIds (l : List Nat) (x : Nat) : x ∈ dedupIds l ↔ x ∈ l := by
  unfold dedupIds
  rw [mem_dedupAux]
  simp

/-- The dedup helper never repeats an element. -/
theorem nodup_dedupAux (l : List Nat) : ∀ (seen : List Nat), (dedupAux l seen).Nodup := by
  induction l with
  | nil => intro seen; simp [dedupAux]
  | cons a rest ih =>
    intro seen
    by_cases ha : a ∈ seen
    · simpa [dedupAux, if_pos ha] using ih seen
    · simp only [dedupAux, if_neg ha, List.nodup_cons]
      refine ⟨?_, ih (a :: seen)⟩
      intro hc
      exact ((mem_dedupAux rest (a :: seen) a).mp hc).2 (List.mem_cons_self a seen)

/-- The de-duplicated list never repeats an element. -/
theorem nodup_dedupIds (l : List Nat) : (dedupIds l).Nodup :=
  nodup_dedupAux l []

/-- An option id resolves for a question when a stored QuestionOption row
carries that id and belongs to that question. -/
def optionResolves (db : DB) (qid oid : Nat) : Prop :=
  ∃ o ∈ db.options, o.id = oid ∧ o.questionId = qid

instance (db : DB) (qid oid : Nat) : Decidable (optionResolves db qid oid) := by
  unfold optionResolves
  infer_instance

/-- When some selected id does not resolve for the question, the option
lookup comes up short of the id count. -/
theorem optionsFoundFor_length_lt (db : DB) (qid : Nat) (ids : List Nat)
    (hopt : (db.options.map (fun o => o.id)).Nodup)
    (x : Nat) (hx : x ∈ ids) (hnores : ¬optionResolves db qid x) :
    (optionsFoundFor db qid ids).length < ids.length := by
  have hfound_sub : ((optionsFoundFor db qid ids).map (fun o => o.id)) ⊆ ids.erase x := by
    intro a ha
    rcases List.mem_map.mp ha with ⟨o, ho, rfl⟩
    have h2 := List.mem_filter.mp ho
    obtain ⟨homem, hcond⟩ := h2
    rw [Bool.and_eq_true] at hcond
    have hid_mem : o.id ∈ ids := by
      have := hcond.1
      simpa [List.contains] using this
    have hqid : o.questionId = qid := by simpa using hcond.2
    have hne : o.id ≠ x := by
      intro he
      exact hnores ⟨o, homem, he, hqid⟩
    exact (List.mem_erase_of_ne hne).mpr hid_mem
  have hnodup_found : ((optionsFoundFor db qid ids).map (fun o => o.id)).Nodup := by
    refine List.Nodup.sublist ?_ hopt
    exact List.Sublist.map _ (List.filter_sublist db.options)
  have hlen := (List.subperm_of_subset hnodup_found hfound_sub).length_le
  rw [List.length_map] at hlen
  have herase : (ids.erase x).length = ids.length - 1 := List.length_erase_of_mem hx
  have hpos : 0 < ids.length := List.length_pos_of_mem hx
  omega

/-- When every selected id resolves for the question, the option lookup
finds exactly one row per id. -/
theorem optionsFoundFor_length_eq (db : DB) (qid : Nat) (ids : List Nat)
    (hids : ids.Nodup) (hopt : (db.options.map (fun o => o.id)).Nodup)
    (hall : ∀ oid ∈ ids, optionResolves db qid oid) :
    (optionsFoundFor db qid ids).length = ids.length := by
  have hnodup_found : ((optionsFoundFor db qid ids).map (fun o => o.id)).Nodup := by
    refine List.Nodup.sublist ?_ hopt
    exact List.Sublist.map _ (List.filter_sublist db.options)
  have hsub1 : ((optionsFoundFor db qid ids).map (fun o => o.id)) ⊆ ids := by
    intro a ha
    rcases List.mem_map.mp ha with ⟨o, ho, rfl⟩
    have h2 := List.mem_filter.mp ho
    rw [Bool.and_eq_true] at h2
    have := h2.2.1
    simpa [List.contains] using this
  have hle1 := (List.subperm_of_subset hnodup_found hsub1).length_le
  rw [List.length_map] at hle1
  have hsub2 : ids ⊆ ((optionsFoundFor db qid ids).map (fun o => o.id)) := by
    intro x hx
    rcases hall x hx with ⟨o, ho, hoid, hoqid⟩
    refine List.mem_map.mpr ⟨o, ?_, hoid⟩
    refine List.mem_filter.mpr ⟨ho, ?_⟩
    rw [Bool.and_eq_true]
    constructor
    · rw [hoid]
      simpa [List.contains] using hx
    · simpa using hoqid
  have hle2 := (List.subperm_of_subset hids hsub2).length_le
  rw [List.length_map] at hle2
  omega

/-- Claim C4: shape validation at upsertAnswer, with no row mutated on
any rejection. A text question rejects any non-empty selected-option list
and requires a text value; a choice question rejects a supplied text
value; a radio question rejects a de-duplicated selection of more than
one; a selection referencing an id that does not resolve to an option of
this exact question is rejected; and when every id resolves (and the
other shape checks pass) the call succeeds. -/
theorem c4_upsertAnswer_shape_validation (db : DB) (submissionId userId : Nat)
    (dto : UpsertAnswerDTO) (s : Submission) (question : Question)
    (hs : db.submissions.find? (fun t => t.id == submissionId) = some s)
    (hstat : s.status = SubmissionStatus.in_progress)
    (hresp : s.respondentUserId = userId)
    (hq : db.questions.find? (fun q => q.id == dto.questionId) = some question)
    (hform : question.formId = s.formId)
    (hopt : (db.options.map (fun o => o.id)).Nodup) :
    (question.type = QuestionType.text →
      ∀ l, dto.selectedOptionIds = some l → l ≠ [] →
        SubmissionsService.upsertAnswer db submissionId userId dto
          = (Except.error (Err.badRequest "Text questions cannot have selectedOptionIds" none), db))
    ∧ (question.type = QuestionType.text →
        (dto.selectedOptionIds = none ∨ dto.selectedOptionIds = some []) →
        dto.textValue = none →
        SubmissionsService.upsertAnswer db submissionId userId dto
          = (Except.error (Err.badRequest "textValue is required for text questions" none), db))
    ∧ (question.type ≠ QuestionType.text →
        ∀ t, dto.textValue = some t →
        SubmissionsService.upsertAnswer db submissionId userId dto
          = (Except.error (Err.badRequest "Checkbox/Radio questions cannot have textValuey" none), db))
    ∧ (question.type = QuestionType.radio →
        dto.textValue = none →
        1 < (dedupIds (dto.selectedOptionIds.getD [])).length →
        SubmissionsService.upsertAnswer db submissionId userId dto
          = (Except.error (Err.badRequest "Radio questions allow only one selected option" none), db))
    ∧ (question.type ≠ QuestionType.text →
        dto.textValue = none →
        ¬(question.type = QuestionType.radio
            ∧ 1 < (dedupIds (dto.selectedOptionIds.getD [])).length) →
        (∃ oid ∈ dedupIds (dto.selectedOptionIds.getD []), ¬optionResolves db question.id oid) →
        SubmissionsService.upsertAnswer db submissionId userId dto
          = (Except.error
              (Err.badRequest "One or more selected options are invalid for this question" none), db))
    ∧ (question.type ≠ QuestionType.text →
        dto.textValue = none →
        ¬(question.type = QuestionType.radio
            ∧ 1 < (dedupIds (dto.selectedOptionIds.getD [])).length) →
        (∀ oid ∈ dedupIds (dto.selectedOptionIds.getD []), optionResolves db question.id oid) →
        ∃ a, (SubmissionsService.upsertAnswer db submissionId userId dto).1 = Except.ok a) := by
  refine ⟨?_, ?_, ?_, ?_, ?_, ?_⟩
  · intro htype l hsel hnil
    have hlen : (0 < l.length) := List.length_pos.mpr hnil
    simp [SubmissionsService.upsertAnswer, hs, hstat, hresp, hq, hform, htype, hsel, hlen]
  · intro htype hsel htv
    rcases hsel with h | h <;>
      simp [SubmissionsService.upsertAnswer, hs, hstat, hresp, hq, hform, htype, h, htv]
  · intro htype t htv
    have hbeq : (question.type == QuestionType.text) = false := by
      simp [htype]
    simp [SubmissionsService.upsertAnswer, hs, hstat, hresp, hq, hform, hbeq, htv]
  · intro htype htv hlen
    have hbeq : (question.type == QuestionType.text) = false := by
      simp [htype]
    simp [SubmissionsService.upsertAnswer, hs, hstat, hresp, hq, hform, hbeq, htype, htv, hlen]
  · intro htype htv hnotradio hbad
    have hbeq : (question.type == QuestionType.text) = false := by
      simp [htype]
    have hcond : (question.type == QuestionType.radio
        && decide (1 < (dedupIds (dto.selectedOptionIds.getD [])).length)) = false := by
      by_cases hr : question.type = QuestionType.radio
      · have hnl : ¬(1 < (dedupIds (dto.selectedOptionIds.getD [])).length) := by
          intro hc
          exact hnotradio ⟨hr, hc⟩
        simp [hr, hnl]
      · simp [hr]
    rcases hbad with ⟨x, hx, hnores⟩
    have hlt := optionsFoundFor_length_lt db question.id
      (dedupIds (dto.selectedOptionIds.getD [])) hopt x hx hnores
    have hpos : 0 < (dedupIds (dto.selectedOptionIds.getD [])).length :=
      List.length_pos_of_mem hx
    have hne : (optionsFoundFor db question.id (dedupIds (dto.selectedOptionIds.getD []))).length
        ≠ (dedupIds (dto.selectedOptionIds.getD [])).length := Nat.ne_of_lt hlt
    simp [SubmissionsService.upsertAnswer, hs, hstat, hresp, hq, hform, hbeq, htv, hcond,
      hpos, hne]
  · intro htype htv hnotradio hall
    have hbeq : (question.type == QuestionType.text) = false := by
      simp [htype]
    have hcond : (question.type == QuestionType.radio
        && decide (1 < (dedupIds (dto.selectedOptionIds.getD [])).length)) = false := by
      by_cases hr : question.type = QuestionType.radio
      · have hnl : ¬(1 < (dedupIds (dto.selectedOptionIds.getD [])).length) := by
          intro hc
          exact hnotradio ⟨hr, hc⟩
        simp [hr, hnl]
      · simp [hr]
    have heq := optionsFoundFor_length_eq db question.id
      (dedupIds (dto.selectedOptionIds.getD []))
      (nodup_dedupIds (dto.selectedOptionIds.getD [])) hopt hall
    refine ⟨(applyAnswerWrite db submissionId question.id none
        (dedupIds (dto.selectedOptionIds.getD []))).1, ?_⟩
    simp [SubmissionsService.upsertAnswer, hs, hstat, hresp, hq, hform, hbeq, htv, hcond, heq]

/-- A checkbox question row for the C4 witness state. -/
def qC4 : Question :=
  { id := 2
    formId := 1
    type := QuestionType.checkbox
    isRequired := false
    minChoices := none
    maxChoices := none
    orderIndex := 0 }

/-- A state for the claim C4 witness: a checkbox question with one
option, and an in_progress submission. -/
def dbC4 : DB :=
  { forms := [{ id := 1, isPublished := true, ownerUserId := 5 }]
    questions := [qC4]
    options := [{ id := 100, questionId := 2 }]
    submissions := [subC1]
    answers := []
    selections := []
    nextId := 20
    now := 3 }

/-- Witness for claim C4 at the concrete state dbC4 with a payload
selecting option 100 of question 2. -/
theorem c4_upsertAnswer_shape_validation_witness :
    (qC4.type = QuestionType.text →
      ∀ l, (some [100] : Option (List Nat)) = some l → l ≠ [] →
        SubmissionsService.upsertAnswer dbC4 10 7
            { questionId := 2, textValue := none, selectedOptionIds := some [100] }
          = (Except.error (Err.badRequest "Text questions cannot have selectedOptionIds" none), dbC4))
    ∧ (qC4.type = QuestionType.text →
        ((some [100] : Option (List Nat)) = none ∨ (some [100] : Option (List Nat)) = some []) →
        (none : Option String) = none →
        SubmissionsService.upsertAnswer dbC4 10 7
            { questionId := 2, textValue := none, selectedOptionIds := some [100] }
          = (Except.error (Err.badRequest "textValue is required for text questions" none), dbC4))
    ∧ (qC4.type ≠ QuestionType.text →
        ∀ t, (none : Option String) = some t →
        SubmissionsService.upsertAnswer dbC4 10 7
            { questionId := 2, textValue := none, selectedOptionIds := some [100] }
          = (Except.error (Err.badRequest "Checkbox/Radio questions cannot have textValuey" none), dbC4))
    ∧ (qC4.type = QuestionType.radio →
        (none : Option String) = none →
        1 < (dedupIds ((some [100] : Option (List Nat)).getD [])).length →
        SubmissionsService.upsertAnswer dbC4 10 7
            { questionId := 2, textValue := none, selectedOptionIds := some [100] }
          = (Except.error (Err.badRequest "Radio questions allow only one selected option" none), dbC4))
    ∧ (qC4.type ≠ QuestionType.text →
        (none : Option String) = none →
        ¬(qC4.type = QuestionType.radio
            ∧ 1 < (dedupIds ((some [100] : Option (List Nat)).getD [])).length) →
        (∃ oid ∈ dedupIds ((some [100] : Option (List Nat)).getD []),
          ¬optionResolves dbC4 qC4.id oid) →
        SubmissionsService.upsertAnswer dbC4 10 7
            { questionId := 2, textValue := none, selectedOptionIds := some [100] }
          = (Except.error
              (Err.badRequest "One or more selected options are invalid for this question" none), dbC4))
    ∧ (qC4.type ≠ QuestionType.text →
        (none : Option String) = none →
        ¬(qC4.type = QuestionType.radio
            ∧ 1 < (dedupIds ((some [100] : Option (List Nat)).getD [])).length) →
        (∀ oid ∈ dedupIds ((some [100] : Option (List Nat)).getD []),
          optionResolves dbC4 qC4.id oid) →
        ∃ a, (SubmissionsService.upsertAnswer dbC4 10 7
            { questionId := 2, textValue := none, selectedOptionIds := some [100] }).1
          = Except.ok a) :=
  c4_upsertAnswer_shape_validation dbC4 10 7
    { questionId := 2, textValue := none, selectedOptionIds := some [100] }
    subC1 qC4 (by decide) rfl rfl (by decide) rfl (by decide)

/-- The Answer rows stored for one (submission, question) pair. -/
def answerRowsFor (db : DB) (sid qid : Nat) : List Answer :=
  db.answers.filter (fun a => a.submissionId == sid && a.questionId == qid)

/-- The stored selected-option ids of one (submission, question) pair:
the option ids linked to each of its answer rows. -/
def storedSelectionIds (db : DB) (sid qid : Nat) : List Nat :=
  (answerRowsFor db sid qid).flatMap
    (fun a => (db.selections.filter (fun x => x.answerId == a.id)).map (fun x => x.optionId))

/-- The storage uniqueness constraint uq_answer_per_question_per_submission:
no two distinct answer rows share (submissionId, questionId). -/
def answerKeyUnique (db : DB) : Prop :=
  db.answers.Pairwise (fun a b => ¬(a.submissionId = b.submissionId ∧ a.questionId = b.questionId))

instance (db : DB) : Decidable (answerKeyUnique db) := by
  unfold answerKeyUnique
  infer_instance

/-- A pairwise key-distinct list whose lookup succeeds filters to exactly
the found row. -/
theorem answers_filter_key_singleton (l : List Answer) (sid qid : Nat) (a0 : Answer)
    (hkey : l.Pairwise (fun a b => ¬(a.submissionId = b.submissionId ∧ a.questionId = b.questionId)))
    (hf : l.find? (fun a => a.submissionId == sid && a.questionId == qid) = some a0) :
    l.filter (fun a => a.submissionId == sid && a.questionId == qid) = [a0] := by
  have hmem : a0 ∈ l := List.mem_of_find?_eq_some hf
  have hpa := List.find?_some hf
  have hmemf : a0 ∈ l.filter (fun a => a.submissionId == sid && a.questionId == qid) :=
    List.mem_filter.mpr ⟨hmem, hpa⟩
  have hsl : List.Sublist (l.filter (fun a => a.submissionId == sid && a.questionId == qid)) l :=
    List.filter_sublist l
  have hpf := List.Pairwise.sublist hsl hkey
  rcases hfl : l.filter (fun a => a.submissionId == sid && a.questionId == qid) with _ | ⟨x, rest⟩
  · rw [hfl] at hmemf
    cases hmemf
  · rcases rest with _ | ⟨y, rest2⟩
    · rw [hfl] at hmemf
      have : a0 = x := by simpa using hmemf
      rw [this]
      exact hfl
    · exfalso
      rw [hfl] at hpf
      have hrel := (List.pairwise_cons.mp hpf).1 y (by simp)
      have hx : (x.submissionId == sid && x.questionId == qid) = true := by
        have hxm : x ∈ l.filter (fun a => a.submissionId == sid && a.questionId == qid) := by
          rw [hfl]
          simp
        exact (List.mem_filter.mp hxm).2
      have hy : (y.submissionId == sid && y.questionId == qid) = true := by
        have hym : y ∈ l.filter (fun a => a.submissionId == sid && a.questionId == qid) := by
          rw [hfl]
          simp
        exact (List.mem_filter.mp hym).2
      simp only [Bool.and_eq_true, beq_iff_eq] at hx hy
      exact hrel ⟨hx.1.trans hy.1.symm, hx.2.trans hy.2.symm⟩

/-- A filter that returns a single row pins down the lookup. -/
theorem find?_eq_some_of_filter_singleton {α : Type} (p : α → Bool) (l : List α) (a : α)
    (h : l.filter p = [a]) : l.find? p = some a := by
  induction l with
  | nil => simp at h
  | cons x xs ih =>
    by_cases hx : p x = true
    · rw [List.filter_cons_of_pos hx] at h
      have hxa : x = a := (List.cons.injEq _ _ _ _).mp h |>.1
      rw [List.find?_cons_of_pos xs hx, hxa]
    · rw [List.filter_cons_of_neg (by simpa using hx)] at h
      rw [List.find?_cons_of_neg xs (by simpa using hx)]
      exact ih h

/-- The answer upsert keeps the questions table. -/
theorem upsertAnswerRow_questions (db : DB) (sid qid : Nat) (tv : Option String) :
    (upsertAnswerRow db sid qid tv).2.questions = db.questions := by
  unfold upsertAnswerRow
  split <;> rfl

/-- The answer upsert keeps the options table. -/
theorem upsertAnswerRow_options (db : DB) (sid qid : Nat) (tv : Option String) :
    (upsertAnswerRow db sid qid tv).2.options = db.options := by
  unfold upsertAnswerRow
  split <;> rfl

/-- The combined write keeps the questions table. -/
theorem applyAnswerWrite_questions (db : DB) (sid qid : Nat) (tv : Option String)
    (sel : List Nat) :
    (applyAnswerWrite db sid qid tv sel).2.questions = db.questions := by
  unfold applyAnswerWrite
  rcases hrow : upsertAnswerRow db sid qid tv with ⟨a, db1⟩
  have hs := upsertAnswerRow_questions db sid qid tv
  rw [hrow] at hs
  simpa [replaceSelections] using hs

/-- The combined write keeps the options table. -/
theorem applyAnswerWrite_options (db : DB) (sid qid : Nat) (tv : Option String)
    (sel : List Nat) :
    (applyAnswerWrite db sid qid tv sel).2.options = db.options := by
  unfold applyAnswerWrite
  rcases hrow : upsertAnswerRow db sid qid tv with ⟨a, db1⟩
  have hs := upsertAnswerRow_options db sid qid tv
  rw [hrow] at hs
  simpa [replaceSelections] using hs

/-- Updating the text of the key-matching rows commutes with filtering
for the key: the update function never changes the key columns. -/
theorem filter_key_map_update (l : List Answer) (sid qid : Nat) (tv : Option String) :
    (l.map (fun t => if t.submissionId == sid && t.questionId == qid then
        { t with textValue := tv } else t)).filter
      (fun a => a.submissionId == sid && a.questionId == qid)
    = (l.filter (fun a => a.submissionId == sid && a.questionId == qid)).map
        (fun t => { t with textValue := tv }) := by
  induction l with
  | nil => rfl
  | cons a rest ih =>
    simp only [Bool.and_eq_true, beq_iff_eq] at ih
    by_cases h : a.submissionId = sid ∧ a.questionId = qid
    · obtain ⟨h1, h2⟩ := h
      simp [List.filter_cons, h1, h2, ih]
    · simp [List.filter_cons, h, ih]

/-- The update branch of the answer upsert, explicitly. -/
theorem upsertAnswerRow_eq_update (db : DB) (sid qid : Nat) (tv : Option String) (a0 : Answer)
    (hf : db.answers.find? (fun a => a.submissionId == sid && a.questionId == qid) = some a0) :
    upsertAnswerRow db sid qid tv
      = ({ a0 with textValue := tv },
          { db with answers := db.answers.map (fun t =>
              if t.submissionId == sid && t.questionId == qid then
                { t with textValue := tv } else t) }) := by
  simp only [upsertAnswerRow, hf]

/-- The create branch of the answer upsert, explicitly. -/
theorem upsertAnswerRow_eq_create (db : DB) (sid qid : Nat) (tv : Option String)
    (hf : db.answers.find? (fun a => a.submissionId == sid && a.questionId == qid) = none) :
    upsertAnswerRow db sid qid tv
      = ({ id := db.nextId, submissionId := sid, questionId := qid, textValue := tv },
          { db with
              answers := db.answers
                ++ [{ id := db.nextId, submissionId := sid, questionId := qid, textValue := tv }]
              nextId := db.nextId + 1 }) := by
  simp only [upsertAnswerRow, hf]

/-- Characterization of the combined write on a key-unique state: after
the call exactly one answer row exists for the pair, it carries the
written text, its linked selections are exactly the requested ids, and
key-uniqueness is preserved. -/
theorem applyAnswerWrite_spec (db : DB) (sid qid : Nat) (tv : Option String) (sel : List Nat)
    (hkey : answerKeyUnique db) :
    answerRowsFor (applyAnswerWrite db sid qid tv sel).2 sid qid
        = [(applyAnswerWrite db sid qid tv sel).1]
    ∧ (applyAnswerWrite db sid qid tv sel).1.textValue = tv
    ∧ ((applyAnswerWrite db sid qid tv sel).2.selections.filter
        (fun x => x.answerId == (applyAnswerWrite db sid qid tv sel).1.id))
        = sel.map (fun oid =>
            { answerId := (applyAnswerWrite db sid qid tv sel).1.id, optionId := oid })
    ∧ answerKeyUnique (applyAnswerWrite db sid qid tv sel).2 := by
  rcases hf : db.answers.find? (fun a => a.submissionId == sid && a.questionId == qid)
    with _ | a0
  · have hrow := upsertAnswerRow_eq_create db sid qid tv hf
    have hw : applyAnswerWrite db sid qid tv sel
        = ({ id := db.nextId, submissionId := sid, questionId := qid, textValue := tv },
            replaceSelections
              { db with
                  answers := db.answers
                    ++ [{ id := db.nextId, submissionId := sid, questionId := qid, textValue := tv }]
                  nextId := db.nextId + 1 }
              db.nextId sel) := by
      unfold applyAnswerWrite
      rw [hrow]
    rw [hw]
    have hnil : db.answers.filter (fun a => a.submissionId == sid && a.questionId == qid) = [] :=
      List.filter_eq_nil_iff.mpr (List.find?_eq_none.mp hf)
    dsimp only [replaceSelections, answerRowsFor]
    refine ⟨?_, rfl, ?_, ?_⟩
    · rw [List.filter_append, hnil]
      simp
    · rw [List.filter_append, List.filter_filter]
      have h1 : db.selections.filter
          (fun x => x.answerId == db.nextId && (x.answerId != db.nextId)) = [] := by
        apply List.filter_eq_nil_iff.mpr
        intro x hx
        simp [bne]
      rw [h1]
      have h2 : (sel.map (fun oid => ({ answerId := db.nextId, optionId := oid }
          : AnswerSelectedOption))).filter (fun x => x.answerId == db.nextId)
          = sel.map (fun oid => { answerId := db.nextId, optionId := oid }) := by
        apply List.filter_eq_self.mpr
        intro x hx
        rcases List.mem_map.mp hx with ⟨oid, hoid, rfl⟩
        simp
      rw [List.nil_append, h2]
    · unfold answerKeyUnique
      dsimp only
      rw [List.pairwise_append]
      refine ⟨hkey, by simp, ?_⟩
      intro a ha b hb
      have hb2 : b = { id := db.nextId, submissionId := sid, questionId := qid, textValue := tv } := by
        simpa using hb
      subst hb2
      intro hc
      have := List.find?_eq_none.mp hf a ha
      simp only [Bool.and_eq_true, beq_iff_eq] at this
      exact this ⟨hc.1, hc.2⟩
  · have hrow := upsertAnswerRow_eq_update db sid qid tv a0 hf
    have hw : applyAnswerWrite db sid qid tv sel
        = ({ a0 with textValue := tv },
            replaceSelections
              { db with answers := db.answers.map (fun t =>
                  if t.submissionId == sid && t.questionId == qid then
                    { t with textValue := tv } else t) }
              a0.id sel) := by
      unfold applyAnswerWrite
      rw [hrow]
    rw [hw]
    have hsingle := answers_filter_key_singleton db.answers sid qid a0 hkey hf
    dsimp only [replaceSelections, answerRowsFor]
    refine ⟨?_, rfl, ?_, ?_⟩
    · rw [filter_key_map_update, hsingle]
      rfl
    · rw [List.filter_append, List.filter_filter]
      have h1 : db.selections.filter
          (fun x => x.answerId == a0.id && (x.answerId != a0.id)) = [] := by
        apply List.filter_eq_nil_iff.mpr
        intro x hx
        simp [bne]
      rw [h1]
      have h2 : (sel.map (fun oid => ({ answerId := a0.id, optionId := oid }
          : AnswerSelectedOption))).filter (fun x => x.answerId == a0.id)
          = sel.map (fun oid => { answerId := a0.id, optionId := oid }) := by
        apply List.filter_eq_self.mpr
        intro x hx
        rcases List.mem_map.mp hx with ⟨oid, hoid, rfl⟩
        simp
      rw [List.nil_append, h2]
    · unfold answerKeyUnique
      dsimp only
      rw [List.pairwise_map]
      apply List.Pairwise.imp ?_ hkey
      intro a b hab
      by_cases ha : (a.submissionId == sid && a.questionId == qid) = true <;>
        by_cases hb : (b.submissionId == sid && b.questionId == qid) = true <;>
        simp [ha, hb, hab]

/-- After the combined write, the stored selection set of the pair is
exactly the written id list. -/
theorem storedSelectionIds_of_write (db : DB) (sid qid : Nat) (tv : Option String)
    (sel : List Nat) (hkey : answerKeyUnique db) :
    storedSelectionIds (applyAnswerWrite db sid qid tv sel).2 sid qid = sel := by
  obtain ⟨hrows, _, hsel, _⟩ := applyAnswerWrite_spec db sid qid tv sel hkey
  unfold storedSelectionIds
  rw [hrows]
  simp only [List.flatMap_cons, List.flatMap_nil, List.append_nil, hsel, List.map_map]
  exact List.map_id'' (fun x => rfl) sel

/-- After the combined write, exactly one answer row exists for the pair. -/
theorem answerRowsFor_of_write (db : DB) (sid qid : Nat) (tv : Option String)
    (sel : List Nat) (hkey : answerKeyUnique db) :
    (answerRowsFor (applyAnswerWrite db sid qid tv sel).2 sid qid).length = 1 := by
  obtain ⟨hrows, _, _, _⟩ := applyAnswerWrite_spec db sid qid tv sel hkey
  rw [hrows]
  rfl

/-- The returned row of the combined write is the upserted answer row. -/
theorem applyAnswerWrite_fst (db : DB) (sid qid : Nat) (tv : Option String) (sel : List Nat) :
    (applyAnswerWrite db sid qid tv sel).1 = (upsertAnswerRow db sid qid tv).1 := by
  unfold applyAnswerWrite
  rcases hrow : upsertAnswerRow db sid qid tv with ⟨a, db1⟩
  rfl

/-- Rewriting the null text of a row with null is the identity. -/
theorem update_textValue_self (a : Answer) (h : a.textValue = none) :
    ({ a with textValue := none } : Answer) = a := by
  rcases a with ⟨i, s2, q2, t⟩
  simp only at h
  rw [h]

/-- The option lookup depends only on the options table. -/
theorem optionsFoundFor_congr (db db2 : DB) (qid : Nat) (ids : List Nat)
    (h : db2.options = db.options) :
    optionsFoundFor db2 qid ids = optionsFoundFor db qid ids := by
  unfold optionsFoundFor
  rw [h]

/-- The successful checkbox path of upsertAnswer reduces to the combined
write of the de-duplicated selection. -/
theorem upsertAnswer_checkbox_success (db : DB) (sid uid : Nat) (dto : UpsertAnswerDTO)
    (s : Submission) (question : Question)
    (hs : db.submissions.find? (fun t => t.id == sid) = some s)
    (hstat : s.status = SubmissionStatus.in_progress)
    (hresp : s.respondentUserId = uid)
    (hq : db.questions.find? (fun q => q.id == dto.questionId) = some question)
    (hform : question.formId = s.formId)
    (htype : question.type = QuestionType.checkbox)
    (htv : dto.textValue = none)
    (hfound : (optionsFoundFor db question.id (dedupIds (dto.selectedOptionIds.getD []))).length
        = (dedupIds (dto.selectedOptionIds.getD [])).length) :
    SubmissionsService.upsertAnswer db sid uid dto
      = (Except.ok (applyAnswerWrite db sid question.id none
            (dedupIds (dto.selectedOptionIds.getD []))).1,
          (applyAnswerWrite db sid question.id none
            (dedupIds (dto.selectedOptionIds.getD []))).2) := by
  have hbeq : (question.type == QuestionType.text) = false := by
    simp [htype]
  have hradio : (question.type == QuestionType.radio) = false := by
    simp [htype]
  simp [SubmissionsService.upsertAnswer, hs, hstat, hresp, hq, hform, hbeq, htv, hradio, hfound]

/-- Claim C8: full-replace semantics of the selected options. One call
stores exactly the de-duplicated payload in exactly one answer row; a
follow-up call with an empty or absent selection clears the set; and a
second identical call returns the same answer and leaves one answer row
with the same de-duplicated set, not doubled. -/
theorem c8_selection_full_replace (db : DB) (sid uid : Nat) (dto : UpsertAnswerDTO)
    (s : Submission) (question : Question)
    (hs : db.submissions.find? (fun t => t.id == sid) = some s)
    (hstat : s.status = SubmissionStatus.in_progress)
    (hresp : s.respondentUserId = uid)
    (hq : db.questions.find? (fun q => q.id == dto.questionId) = some question)
    (hform : question.formId = s.formId)
    (hopt : (db.options.map (fun o => o.id)).Nodup)
    (hkey : answerKeyUnique db)
    (htype : question.type = QuestionType.checkbox)
    (htv : dto.textValue = none)
    (hall : ∀ oid ∈ dedupIds (dto.selectedOptionIds.getD []),
      optionResolves db question.id oid) :
    ((answerRowsFor (SubmissionsService.upsertAnswer db sid uid dto).2 sid question.id).length = 1)
    ∧ storedSelectionIds (SubmissionsService.upsertAnswer db sid uid dto).2 sid question.id
        = dedupIds (dto.selectedOptionIds.getD [])
    ∧ (∀ dto2 : UpsertAnswerDTO, dto2.questionId = dto.questionId → dto2.textValue = none →
        (dto2.selectedOptionIds = none ∨ dto2.selectedOptionIds = some []) →
        storedSelectionIds
          (SubmissionsService.upsertAnswer
            (SubmissionsService.upsertAnswer db sid uid dto).2 sid uid dto2).2
          sid question.id = [])
    ∧ (SubmissionsService.upsertAnswer
          (SubmissionsService.upsertAnswer db sid uid dto).2 sid uid dto).1
        = (SubmissionsService.upsertAnswer db sid uid dto).1
    ∧ storedSelectionIds
        (SubmissionsService.upsertAnswer
          (SubmissionsService.upsertAnswer db sid uid dto).2 sid uid dto).2
        sid question.id = dedupIds (dto.selectedOptionIds.getD [])
    ∧ (answerRowsFor
        (SubmissionsService.upsertAnswer
          (SubmissionsService.upsertAnswer db sid uid dto).2 sid uid dto).2
        sid question.id).length = 1 := by
  have hfound := optionsFoundFor_length_eq db question.id
    (dedupIds (dto.selectedOptionIds.getD []))
    (nodup_dedupIds (dto.selectedOptionIds.getD [])) hopt hall
  have hred := upsertAnswer_checkbox_success db sid uid dto s question
    hs hstat hresp hq hform htype htv hfound
  obtain ⟨hrows1, htv1, hsel1, hkey1⟩ := applyAnswerWrite_spec db sid question.id none
    (dedupIds (dto.selectedOptionIds.getD [])) hkey
  have hsubs1 := applyAnswerWrite_submissions db sid question.id none
    (dedupIds (dto.selectedOptionIds.getD []))
  have hqs1 := applyAnswerWrite_questions db sid question.id none
    (dedupIds (dto.selectedOptionIds.getD []))
  have hopts1 := applyAnswerWrite_options db sid question.id none
    (dedupIds (dto.selectedOptionIds.getD []))
  have hs1 : (applyAnswerWrite db sid question.id none
      (dedupIds (dto.selectedOptionIds.getD []))).2.submissions.find?
        (fun t => t.id == sid) = some s := by
    rw [hsubs1]
    exact hs
  refine ⟨?_, ?_, ?_, ?_, ?_, ?_⟩
  · rw [hred]
    exact answerRowsFor_of_write db sid question.id none
      (dedupIds (dto.selectedOptionIds.getD [])) hkey
  · rw [hred]
    exact storedSelectionIds_of_write db sid question.id none
      (dedupIds (dto.selectedOptionIds.getD [])) hkey
  · intro dto2 hq2 htv2 hsel2
    have hq2q : (applyAnswerWrite db sid question.id none
        (dedupIds (dto.selectedOptionIds.getD []))).2.questions.find?
          (fun q => q.id == dto2.questionId) = some question := by
      rw [hqs1, hq2]
      exact hq
    have hids2 : dedupIds (dto2.selectedOptionIds.getD []) = [] := by
      rcases hsel2 with h | h <;> simp [h, dedupIds, dedupAux]
    have hfound2 : (optionsFoundFor (applyAnswerWrite db sid question.id none
        (dedupIds (dto.selectedOptionIds.getD []))).2 question.id
          (dedupIds (dto2.selectedOptionIds.getD []))).length
        = (dedupIds (dto2.selectedOptionIds.getD [])).length := by
      rw [hids2]
      simp [optionsFoundFor]
    have hred2 := upsertAnswer_checkbox_success
      (applyAnswerWrite db sid question.id none (dedupIds (dto.selectedOptionIds.getD []))).2
      sid uid dto2 s question hs1 hstat hresp hq2q hform htype htv2 hfound2
    rw [hred, hred2, hids2]
    exact storedSelectionIds_of_write _ sid question.id none [] hkey1
  · have hfound1 : (optionsFoundFor (applyAnswerWrite db sid question.id none
        (dedupIds (dto.selectedOptionIds.getD []))).2 question.id
          (dedupIds (dto.selectedOptionIds.getD []))).length
        = (dedupIds (dto.selectedOptionIds.getD [])).length := by
      rw [optionsFoundFor_congr db _ question.id _ hopts1]
      exact hfound
    have hq1 : (applyAnswerWrite db sid question.id none
        (dedupIds (dto.selectedOptionIds.getD []))).2.questions.find?
          (fun q => q.id == dto.questionId) = some question := by
      rw [hqs1]
      exact hq
    have hred2 := upsertAnswer_checkbox_success
      (applyAnswerWrite db sid question.id none (dedupIds (dto.selectedOptionIds.getD []))).2
      sid uid dto s question hs1 hstat hresp hq1 hform htype htv hfound1
    rw [hred, hred2]
    have hfind1 : (applyAnswerWrite db sid question.id none
        (dedupIds (dto.selectedOptionIds.getD []))).2.answers.find?
          (fun a => a.submissionId == sid && a.questionId == question.id)
        = some (applyAnswerWrite db sid question.id none
            (dedupIds (dto.selectedOptionIds.getD []))).1 :=
      find?_eq_some_of_filter_singleton _ _ _ hrows1
    have hrow2 := upsertAnswerRow_eq_update
      (applyAnswerWrite db sid question.id none (dedupIds (dto.selectedOptionIds.getD []))).2
      sid question.id none _ hfind1
    have hfst := applyAnswerWrite_fst
      (applyAnswerWrite db sid question.id none (dedupIds (dto.selectedOptionIds.getD []))).2
      sid question.id none (dedupIds (dto.selectedOptionIds.getD []))
    rw [hfst, hrow2]
    simp only []
    rw [update_textValue_self _ htv1]
  · have hfound1 : (optionsFoundFor (applyAnswerWrite db sid question.id none
        (dedupIds (dto.selectedOptionIds.getD []))).2 question.id
          (dedupIds (dto.selectedOptionIds.getD []))).length
        = (dedupIds (dto.selectedOptionIds.getD [])).length := by
      rw [optionsFoundFor_congr db _ question.id _ hopts1]
      exact hfound
    have hq1 : (applyAnswerWrite db sid question.id none
        (dedupIds (dto.selectedOptionIds.getD []))).2.questions.find?
          (fun q => q.id == dto.questionId) = some question := by
      rw [hqs1]
      exact hq
    have hred2 := upsertAnswer_checkbox_success
      (applyAnswerWrite db sid question.id none (dedupIds (dto.selectedOptionIds.getD []))).2
      sid uid dto s question hs1 hstat hresp hq1 hform htype htv hfound1
    rw [hred, hred2]
    exact storedSelectionIds_of_write _ sid question.id none _ hkey1
  · have hfound1 : (optionsFoundFor (applyAnswerWrite db sid question.id none
        (dedupIds (dto.selectedOptionIds.getD []))).2 question.id
          (dedupIds (dto.selectedOptionIds.getD []))).length
        = (dedupIds (dto.selectedOptionIds.getD [])).length := by
      rw [optionsFoundFor_congr db _ question.id _ hopts1]
      exact hfound
    have hq1 : (applyAnswerWrite db sid question.id none
        (dedupIds (dto.selectedOptionIds.getD []))).2.questions.find?
          (fun q => q.id == dto.questionId) = some question := by
      rw [hqs1]
      exact hq
    have hred2 := upsertAnswer_checkbox_success
      (applyAnswerWrite db sid question.id none (dedupIds (dto.selectedOptionIds.getD []))).2
      sid uid dto s question hs1 hstat hresp hq1 hform htype htv hfound1
    rw [hred, hred2]
    exact answerRowsFor_of_write _ sid question.id none _ hkey1

/-- The duplicated payload of the C8 witness: option 100 twice plus 101. -/
def dtoC8 : UpsertAnswerDTO :=
  { questionId := 2
    textValue := none
    selectedOptionIds := some [100, 100, 101] }

/-- A state for the claim C8 witness: the checkbox question 2 with two
options and an in_progress submission with no answers yet. -/
def dbC8 : DB :=
  { forms := [{ id := 1, isPublished := true, ownerUserId := 5 }]
    questions := [qC4]
    options := [{ id := 100, questionId := 2 }, { id := 101, questionId := 2 }]
    submissions := [subC1]
    answers := []
    selections := []
    nextId := 20
    now := 3 }

/-- Witness for claim C8 at the concrete state dbC8 with the duplicated
payload [100, 100, 101]. -/
theorem c8_selection_full_replace_witness :
    ((answerRowsFor (SubmissionsService.upsertAnswer dbC8 10 7 dtoC8).2 10 qC4.id).length = 1)
    ∧ storedSelectionIds (SubmissionsService.upsertAnswer dbC8 10 7 dtoC8).2 10 qC4.id
        = dedupIds (dtoC8.selectedOptionIds.getD [])
    ∧ (∀ dto2 : UpsertAnswerDTO, dto2.questionId = dtoC8.questionId → dto2.textValue = none →
        (dto2.selectedOptionIds = none ∨ dto2.selectedOptionIds = some []) →
        storedSelectionIds
          (SubmissionsService.upsertAnswer
            (SubmissionsService.upsertAnswer dbC8 10 7 dtoC8).2 10 7 dto2).2
          10 qC4.id = [])
    ∧ (SubmissionsService.upsertAnswer
          (SubmissionsService.upsertAnswer dbC8 10 7 dtoC8).2 10 7 dtoC8).1
        = (SubmissionsService.upsertAnswer dbC8 10 7 dtoC8).1
    ∧ storedSelectionIds
        (SubmissionsService.upsertAnswer
          (SubmissionsService.upsertAnswer dbC8 10 7 dtoC8).2 10 7 dtoC8).2
        10 qC4.id = dedupIds (dtoC8.selectedOptionIds.getD [])
    ∧ (answerRowsFor
        (SubmissionsService.upsertAnswer
          (SubmissionsService.upsertAnswer dbC8 10 7 dtoC8).2 10 7 dtoC8).2
        10 qC4.id).length = 1 :=
  c8_selection_full_replace dbC8 10 7 dtoC8 subC1 qC4
    (by decide) rfl rfl (by decide) rfl (by decide) (by decide) rfl rfl (by decide)

end FormsBackend
